import Mathlib

/-
Verification of the agent-discovery subsystem of the proxy server
(`proxy_server/app/discovery.py`) and of the dispute-policy evaluator
(`agent_dispute_policy/app/main.py`), against a shallow embedding in Lean.

Modelling choices:
* Timestamps (`datetime.now(timezone.utc)`) are modelled as integers counting
  seconds; `timedelta(seconds=T)` comparisons become integer comparisons.
* JSON values are modelled by the inductive `Json`; Python truthiness of a
  JSON value (`if not agent_id: ...`) is `Json.truthy`.
* The registry `active_agents : Dict[str, AgentInfo]` is modelled as an
  association list `Registry := List (String × AgentInfo)`.  A Python dict
  has unique keys and preserves insertion order; assignment to an existing
  key overwrites in place, assignment to a fresh key appends.  Uniqueness of
  keys is carried as a `Nodup` hypothesis where a theorem needs it.
* The HTTP interaction of one poll is captured by `HttpResult`: either a
  transport-level error (timeout / connection error), or a response with a
  status code and, when the body parses as JSON, the parsed body.
  `response.raise_for_status()` turns a non-2xx response into an exception,
  and a JSON decode error is likewise an exception; every exception funnels
  into the same mark-as-unreachable epilogue of `poll_agent`.
* Python reference semantics (needed to analyse what the registry reads
  actually hand out) are modelled separately at the end with an explicit
  heap of `AgentInfo` cells addressed by `Ref`.
-/

/-- JSON values, as produced by `response.json()`. Numbers are modelled as
integers; none of the analysed code paths depends on fractional values of a
payload field. An object is a finite list of key/value pairs (a Python dict,
so keys are unique). -/
inductive Json where
  | null
  | bool (b : Bool)
  | num (n : Int)
  | str (s : String)
  | arr (elems : List Json)
  | obj (fields : List (String × Json))

/-- Python truthiness of a JSON value: `None`, `False`, `0`, `""`, `[]` and
`{}` are falsy, everything else is truthy. -/
def Json.truthy : Json → Bool
  | .null => false
  | .bool b => b
  | .num n => n != 0
  | .str s => s != ""
  | .arr elems => !elems.isEmpty
  | .obj fields => !fields.isEmpty

/-- `d.get(k)` on a parsed JSON object: `some v` when the object has key `k`,
`none` otherwise.  On a non-object JSON value Python's `.get` raises
`AttributeError`, which `poll_agent`'s catch-all turns into the same failure
path as a missing `id`; returning `none` here yields the identical outcome. -/
def Json.get : Json → String → Option Json
  | .obj fields, k => (fields.find? (fun p => p.1 = k)).map Prod.snd
  | _, _ => none

/-- `AgentInfo` from `proxy_server/app/models.py`.  The metadata fields are
kept as the raw JSON values extracted from the payload. -/
structure AgentInfo where
  agent_id : Json
  base_url : String
  name : Option Json := none
  description : Option Json := none
  capabilities_url : Option Json := none
  last_seen : Int
  status : String := "active"
  raw_agent_json : Option Json := none

/-- The module-level registry `active_agents : Dict[str, AgentInfo]`,
keyed by the agent's base url. -/
abbrev Registry := List (String × AgentInfo)

/-- First-match lookup, i.e. `active_agents[url]` / `url in active_agents`
on a dict with unique keys. -/
def lookupReg : Registry → String → Option AgentInfo
  | [], _ => none
  | p :: rest, url => if p.1 = url then some p.2 else lookupReg rest url

/-- `active_agents[url] = info` on a Python dict: overwrite when the key is
present (keeping its position), append when it is fresh. -/
def upsert (reg : Registry) (url : String) (info : AgentInfo) : Registry :=
  if reg.any (fun p => p.1 = url) then
    reg.map (fun p => if p.1 = url then (url, info) else p)
  else
    reg ++ [(url, info)]

/-- The failure epilogue of `poll_agent` (discovery.py lines 103-112):
`if agent_url in active_agents: active_agents[agent_url].status = "unreachable"`.
A no-op when the url has no record. -/
def markUnreachable (reg : Registry) (url : String) : Registry :=
  reg.map (fun p => if p.1 = url then (p.1, { p.2 with status := "unreachable" }) else p)

/-- `POLL_INTERVAL_SECONDS = 30` (discovery.py line 16). -/
def POLL_INTERVAL_SECONDS : Int := 30

/-- `INACTIVE_THRESHOLD_SECONDS = POLL_INTERVAL_SECONDS * 3 + 5`
(discovery.py line 18). -/
def INACTIVE_THRESHOLD_SECONDS : Int := POLL_INTERVAL_SECONDS * 3 + 5

/-- Removal threshold: `check_agent_liveness` computes it inline as
`INACTIVE_THRESHOLD_SECONDS * 5` (discovery.py line 121). -/
def REMOVAL_THRESHOLD_SECONDS : Int := INACTIVE_THRESHOLD_SECONDS * 5

/-- Python's `s.strip('/')`: remove all leading and trailing `/` characters. -/
def stripSlashes (s : String) : String :=
  String.mk ((((s.toList.dropWhile (fun c => c = '/')).reverse.dropWhile
    (fun c => c = '/')).reverse))

/-- `agent_wellknown_url = f"{agent_url.strip('/')}/.well-known/a2a/agent.json"`
(discovery.py line 46). -/
def agent_wellknown_url (agent_url : String) : String :=
  stripSlashes agent_url ++ "/.well-known/a2a/agent.json"

/-- The observable outcome of the HTTP GET issued by one poll:
either a transport error (`httpx.TimeoutException` / `ConnectError`), or a
response carrying its status code together with the parsed JSON body
(`none` when the body is not valid JSON). -/
inductive HttpResult where
  | netError
  | response (code : Nat) (body : Option Json)

/-- `response.raise_for_status()` passes exactly the non-error codes; httpx
raises for 4xx/5xx, and with `follow_redirects=True` a delivered response is
a success iff its code is 2xx. -/
def isSuccessStatus (code : Nat) : Bool :=
  200 ≤ code && code < 300

/-- One call of `poll_agent` (discovery.py lines 43-113), as a function of the
registry before the call, the polled url, the HTTP outcome and the time
`now = datetime.now(timezone.utc)` taken inside the lock.  Returns the
registry after the call together with the function's return value
(`some agent_id` on success, `none` on failure).  Control flow of the source:
any of transport error, non-2xx status (`raise_for_status`), JSON decode
error, or a missing/falsy `id` field raises, and every exception lands in the
common epilogue that marks an existing record unreachable. -/
def poll_agent (reg : Registry) (agent_url : String) (result : HttpResult)
    (now : Int) : Registry × Option Json :=
  match result with
  | .netError => (markUnreachable reg agent_url, none)
  | .response code body =>
    if isSuccessStatus code then
      match body with
      | none => (markUnreachable reg agent_url, none)
      | some agent_json =>
        match agent_json.get "id" with
        | none => (markUnreachable reg agent_url, none)
        | some agent_id =>
          if agent_id.truthy then
            (upsert reg agent_url
              { agent_id := agent_id
                base_url := agent_url
                name := agent_json.get "name"
                description := agent_json.get "description"
                capabilities_url := agent_json.get "capabilities_url"
                last_seen := now
                status := "active"
                raw_agent_json := some agent_json },
             some agent_id)
          else
            (markUnreachable reg agent_url, none)
    else
      (markUnreachable reg agent_url, none)

/-- The per-record body of the sweep loop in `check_agent_liveness`
(discovery.py lines 126-135): a record slated for removal
(`last_seen < very_old_since`) is left untouched here and deleted below;
otherwise, when `last_seen < inactive_since` and the status is not already
`"inactive"`, the status is set to `"inactive"`; otherwise nothing changes. -/
def sweepStep (now : Int) (p : String × AgentInfo) : String × AgentInfo :=
  if p.2.last_seen < now - REMOVAL_THRESHOLD_SECONDS then p
  else if p.2.last_seen < now - INACTIVE_THRESHOLD_SECONDS && p.2.status != "inactive" then
    (p.1, { p.2 with status := "inactive" })
  else p

/-- `check_agent_liveness` (discovery.py lines 115-145): one pass over the
registry demoting stale records, then deletion of the records collected in
`agents_to_remove` (those with `last_seen < very_old_since`, where
`very_old_since = now - INACTIVE_THRESHOLD_SECONDS * 5`). -/
def check_agent_liveness (reg : Registry) (now : Int) : Registry :=
  (reg.map (sweepStep now)).filter
    (fun p => !(p.2.last_seen < now - REMOVAL_THRESHOLD_SECONDS))

/-- `get_active_agents` (discovery.py lines 200-205):
`[info for info in active_agents.values() if info.status == "active"]`. -/
def get_active_agents (reg : Registry) : List AgentInfo :=
  (reg.map Prod.snd).filter (fun info => info.status = "active")

/-- `get_all_discovered_agents` (discovery.py lines 207-210):
`list(active_agents.values())`. -/
def get_all_discovered_agents (reg : Registry) : List AgentInfo :=
  reg.map Prod.snd

/-! ### Helper lemmas about the registry operations -/

theorem keys_not_mem_of_any_eq_false {reg : Registry} {url : String}
    (h : reg.any (fun p => p.1 = url) = false) : url ∉ reg.map Prod.fst := by
  intro hmem
  rcases List.mem_map.mp hmem with ⟨p, hp, hkey⟩
  have := List.any_eq_false.mp h p hp
  simp [hkey] at this

theorem map_replace_eq_self (rest : Registry) (url : String) (info : AgentInfo)
    (h : url ∉ rest.map Prod.fst) :
    rest.map (fun p => if p.1 = url then (url, info) else p) = rest := by
  induction rest with
  | nil => rfl
  | cons q rest ih =>
    simp only [List.map_cons, List.mem_cons, not_or] at h
    have hq : q.1 ≠ url := fun he => h.1 he.symm
    simp [hq, ih h.2]

theorem filter_key_eq_nil (rest : Registry) (url : String)
    (h : url ∉ rest.map Prod.fst) :
    rest.filter (fun p => p.1 = url) = [] := by
  induction rest with
  | nil => rfl
  | cons q rest ih =>
    simp only [List.map_cons, List.mem_cons, not_or] at h
    have hq : q.1 ≠ url := fun he => h.1 he.symm
    simp [List.filter_cons, hq, ih h.2]

theorem upsert_cons_ne (p : String × AgentInfo) (rest : Registry) (url : String)
    (info : AgentInfo) (h : p.1 ≠ url) :
    upsert (p :: rest) url info = p :: upsert rest url info := by
  by_cases hany : rest.any (fun q => q.1 = url)
  · simp [upsert, hany, h]
  · simp [upsert, hany, h]

theorem upsert_cons_eq (p : String × AgentInfo) (rest : Registry) (url : String)
    (info : AgentInfo) (h : p.1 = url) (hrest : url ∉ rest.map Prod.fst) :
    upsert (p :: rest) url info = (url, info) :: rest := by
  simp [upsert, List.any_cons, h, map_replace_eq_self rest url info hrest]

/-- With unique keys, after an upsert the entries keyed by `url` are exactly
the single upserted record. -/
theorem filter_upsert (reg : Registry) (url : String) (info : AgentInfo)
    (hnodup : (reg.map Prod.fst).Nodup) :
    (upsert reg url info).filter (fun p => p.1 = url) = [(url, info)] := by
  induction reg with
  | nil => simp [upsert]
  | cons p rest ih =>
    simp only [List.map_cons, List.nodup_cons] at hnodup
    by_cases hp : p.1 = url
    · rw [upsert_cons_eq p rest url info hp (hp ▸ hnodup.1)]
      simp [List.filter_cons, filter_key_eq_nil rest url (hp ▸ hnodup.1)]
    · rw [upsert_cons_ne p rest url info hp]
      simp [List.filter_cons, hp, ih hnodup.2]

theorem mem_upsert_self (reg : Registry) (url : String) (info : AgentInfo)
    (hnodup : (reg.map Prod.fst).Nodup) :
    (url, info) ∈ upsert reg url info := by
  have h := filter_upsert reg url info hnodup
  have : (url, info) ∈ (upsert reg url info).filter (fun p => p.1 = url) := by
    rw [h]; exact List.mem_singleton.mpr rfl
  exact List.mem_of_mem_filter this

/-- Membership characterisation of `get_active_agents`. -/
theorem mem_get_active_agents {reg : Registry} {info : AgentInfo} :
    info ∈ get_active_agents reg ↔
      (∃ url, (url, info) ∈ reg) ∧ info.status = "active" := by
  unfold get_active_agents
  rw [List.mem_filter]
  constructor
  · rintro ⟨hmem, hst⟩
    rcases List.mem_map.mp hmem with ⟨p, hp, rfl⟩
    exact ⟨⟨p.1, hp⟩, by simpa using hst⟩
  · rintro ⟨⟨url, hmem⟩, hst⟩
    exact ⟨List.mem_map.mpr ⟨(url, info), hmem, rfl⟩, by simpa using hst⟩

/-- C1: if a poll of endpoint `url` succeeds at time `t` — HTTP 2xx with a
JSON object body whose `id` field is present and truthy — then `poll_agent`
returns that id, and the registry afterwards contains exactly one record
keyed by `url`, with `status = "active"`, `last_seen = t` and the optional
fields parsed from the body; `get_active_agents` includes that record. -/
theorem poll_success_registers_active (reg : Registry) (url : String)
    (code : Nat) (body : Json) (t : Int) (idv : Json)
    (hnodup : (reg.map Prod.fst).Nodup)
    (hcode : isSuccessStatus code = true)
    (hid : body.get "id" = some idv)
    (htruthy : idv.truthy = true) :
    (poll_agent reg url (.response code (some body)) t).2 = some idv ∧
    (poll_agent reg url (.response code (some body)) t).1.filter
        (fun p => p.1 = url) =
      [(url, { agent_id := idv
               base_url := url
               name := body.get "name"
               description := body.get "description"
               capabilities_url := body.get "capabilities_url"
               last_seen := t
               status := "active"
               raw_agent_json := some body })] ∧
    { agent_id := idv
      base_url := url
      name := body.get "name"
      description := body.get "description"
      capabilities_url := body.get "capabilities_url"
      last_seen := t
      status := "active"
      raw_agent_json := some body : AgentInfo } ∈
      get_active_agents (poll_agent reg url (.response code (some body)) t).1 := by
  have hpoll : poll_agent reg url (.response code (some body)) t =
      (upsert reg url
        { agent_id := idv
          base_url := url
          name := body.get "name"
          description := body.get "description"
          capabilities_url := body.get "capabilities_url"
          last_seen := t
          status := "active"
          raw_agent_json := some body }, some idv) := by
    simp [poll_agent, hcode, hid, htruthy]
  refine ⟨by rw [hpoll], by rw [hpoll]; exact filter_upsert reg url _ hnodup, ?_⟩
  rw [hpoll]
  exact mem_get_active_agents.mpr ⟨⟨url, mem_upsert_self reg url _ hnodup⟩, rfl⟩

/-- Witness for the successful-poll theorem at a concrete input:
empty registry, endpoint `"http://a"`, HTTP 200, body `{"id": "X"}`, t = 7. -/
theorem poll_success_registers_active_witness :
    (poll_agent [] "http://a"
        (.response 200 (some (Json.obj [("id", Json.str "X")]))) 7).2 =
      some (Json.str "X") ∧
    (poll_agent [] "http://a"
        (.response 200 (some (Json.obj [("id", Json.str "X")]))) 7).1.filter
        (fun p => p.1 = "http://a") =
      [("http://a",
        { agent_id := Json.str "X"
          base_url := "http://a"
          name := (Json.obj [("id", Json.str "X")]).get "name"
          description := (Json.obj [("id", Json.str "X")]).get "description"
          capabilities_url := (Json.obj [("id", Json.str "X")]).get "capabilities_url"
          last_seen := 7
          status := "active"
          raw_agent_json := some (Json.obj [("id", Json.str "X")]) })] ∧
    { agent_id := Json.str "X"
      base_url := "http://a"
      name := (Json.obj [("id", Json.str "X")]).get "name"
      description := (Json.obj [("id", Json.str "X")]).get "description"
      capabilities_url := (Json.obj [("id", Json.str "X")]).get "capabilities_url"
      last_seen := 7
      status := "active"
      raw_agent_json := some (Json.obj [("id", Json.str "X")]) : AgentInfo } ∈
      get_active_agents (poll_agent [] "http://a"
        (.response 200 (some (Json.obj [("id", Json.str "X")]))) 7).1 :=
  poll_success_registers_active [] "http://a" 200 (Json.obj [("id", Json.str "X")]) 7
    (Json.str "X") (by simp) (by rfl) (by rfl) (by rfl)

/-! ### Lemmas about the liveness sweep -/

theorem sweepStep_fst (now : Int) (p : String × AgentInfo) :
    (sweepStep now p).1 = p.1 := by
  unfold sweepStep; split
  · rfl
  · split <;> rfl

theorem sweepStep_last_seen (now : Int) (p : String × AgentInfo) :
    (sweepStep now p).2.last_seen = p.2.last_seen := by
  unfold sweepStep; split
  · rfl
  · split <;> rfl

theorem sweep_cons (p : String × AgentInfo) (rest : Registry) (now : Int) :
    check_agent_liveness (p :: rest) now =
      if p.2.last_seen < now - REMOVAL_THRESHOLD_SECONDS then
        check_agent_liveness rest now
      else
        sweepStep now p :: check_agent_liveness rest now := by
  unfold check_agent_liveness
  rw [List.map_cons, List.filter_cons, sweepStep_last_seen]
  by_cases h : p.2.last_seen < now - REMOVAL_THRESHOLD_SECONDS <;> simp [h]

theorem lookup_sweep_of_not_mem (reg : Registry) (now : Int) (url : String)
    (h : url ∉ reg.map Prod.fst) :
    lookupReg (check_agent_liveness reg now) url = none := by
  induction reg with
  | nil => rfl
  | cons p rest ih =>
    simp only [List.map_cons, List.mem_cons, not_or] at h
    have hp : p.1 ≠ url := fun he => h.1 he.symm
    rw [sweep_cons]
    by_cases hrem : p.2.last_seen < now - REMOVAL_THRESHOLD_SECONDS
    · simpa [hrem] using ih h.2
    · simp only [hrem, if_false]
      rw [lookupReg, sweepStep_fst]
      simp [hp, ih h.2]

/-- Lookup-level characterisation of one sweep: a record is deleted when
stale beyond the removal threshold, demoted to `"inactive"` when stale beyond
the inactive threshold and not already inactive, and kept unchanged
otherwise. -/
theorem lookup_sweep (reg : Registry) (now : Int) (url : String)
    (hnodup : (reg.map Prod.fst).Nodup) :
    lookupReg (check_agent_liveness reg now) url =
      (lookupReg reg url).bind (fun info =>
        if info.last_seen < now - REMOVAL_THRESHOLD_SECONDS then none
        else if info.last_seen < now - INACTIVE_THRESHOLD_SECONDS ∧
            info.status ≠ "inactive" then
          some { info with status := "inactive" }
        else some info) := by
  induction reg with
  | nil => rfl
  | cons p rest ih =>
    simp only [List.map_cons, List.nodup_cons] at hnodup
    rw [sweep_cons]
    by_cases hp : p.1 = url
    · subst hp
      rw [lookupReg, if_pos rfl, Option.some_bind]
      by_cases hrem : p.2.last_seen < now - REMOVAL_THRESHOLD_SECONDS
      · rw [if_pos hrem, if_pos hrem]
        exact lookup_sweep_of_not_mem rest now p.1 hnodup.1
      · rw [if_neg hrem, if_neg hrem]
        rw [lookupReg, sweepStep_fst, if_pos rfl]
        unfold sweepStep
        rw [if_neg hrem]
        by_cases hdem : p.2.last_seen < now - INACTIVE_THRESHOLD_SECONDS ∧
            p.2.status ≠ "inactive"
        · rw [if_pos hdem]
          have hb : (p.2.last_seen < now - INACTIVE_THRESHOLD_SECONDS &&
              p.2.status != "inactive") = true := by
            simp [hdem.1, hdem.2]
          rw [if_pos hb]
        · rw [if_neg hdem]
          have hb : ¬ ((p.2.last_seen < now - INACTIVE_THRESHOLD_SECONDS &&
              p.2.status != "inactive") = true) := by
            simpa [Decidable.not_and_iff_or_not, not_not] using hdem
          rw [if_neg hb]
    · have hrest := ih hnodup.2
      by_cases hrem : p.2.last_seen < now - REMOVAL_THRESHOLD_SECONDS
      · rw [if_pos hrem, hrest, lookupReg, if_neg hp]
      · rw [if_neg hrem, lookupReg, sweepStep_fst, if_neg hp, hrest,
          lookupReg, if_neg hp]

/-- C2: in a sweep at time `now` over any registry, every record with
`now - lastSeen > removalThreshold` is deleted regardless of status; every
remaining record with `now - lastSeen > inactiveThreshold` and status not
already `"inactive"` is set to `"inactive"`; every other record is unchanged;
a sweep never leaves a record `"active"` that was not already exactly so
before; and the thresholds are 95s and 475s = 5 × 95s. -/
theorem sweep_deletes_demotes_preserves (reg : Registry) (now : Int)
    (hnodup : (reg.map Prod.fst).Nodup) :
    (∀ url info, lookupReg reg url = some info →
      ((now - info.last_seen > REMOVAL_THRESHOLD_SECONDS →
          lookupReg (check_agent_liveness reg now) url = none) ∧
       (now - info.last_seen ≤ REMOVAL_THRESHOLD_SECONDS →
          now - info.last_seen > INACTIVE_THRESHOLD_SECONDS →
          info.status ≠ "inactive" →
          lookupReg (check_agent_liveness reg now) url =
            some { info with status := "inactive" }) ∧
       (now - info.last_seen ≤ REMOVAL_THRESHOLD_SECONDS →
          ¬ (now - info.last_seen > INACTIVE_THRESHOLD_SECONDS ∧
              info.status ≠ "inactive") →
          lookupReg (check_agent_liveness reg now) url = some info))) ∧
    (∀ url info', lookupReg (check_agent_liveness reg now) url = some info' →
        info'.status = "active" → lookupReg reg url = some info') ∧
    INACTIVE_THRESHOLD_SECONDS = 95 ∧
    REMOVAL_THRESHOLD_SECONDS = 5 * INACTIVE_THRESHOLD_SECONDS ∧
    REMOVAL_THRESHOLD_SECONDS = 475 := by
  refine ⟨?_, ?_, by decide, by decide, by decide⟩
  · intro url info hlk
    have h := lookup_sweep reg now url hnodup
    rw [hlk, Option.some_bind] at h
    refine ⟨?_, ?_, ?_⟩
    · intro hr
      rw [h, if_pos (by omega)]
    · intro hr hi hs
      rw [h, if_neg (by omega), if_pos ⟨by omega, hs⟩]
    · intro hr hcond
      rw [h, if_neg (by omega), if_neg (fun hc => hcond ⟨by omega, hc.2⟩)]
  · intro url info' hlk hact
    have h := lookup_sweep reg now url hnodup
    cases hreg : lookupReg reg url with
    | none => rw [hreg] at h; rw [hlk] at h; cases h
    | some info =>
      rw [hreg, Option.some_bind] at h
      rw [h] at hlk
      by_cases h1 : info.last_seen < now - REMOVAL_THRESHOLD_SECONDS
      · rw [if_pos h1] at hlk
        cases hlk
      · rw [if_neg h1] at hlk
        by_cases h2 : info.last_seen < now - INACTIVE_THRESHOLD_SECONDS ∧
            info.status ≠ "inactive"
        · rw [if_pos h2] at hlk
          obtain rfl := Option.some_inj.mp hlk
          simp at hact
        · rw [if_neg h2] at hlk
          obtain rfl := Option.some_inj.mp hlk
          rfl

/-- Witness for the sweep theorem on a concrete three-record registry at
`now = 500`: the record last seen at 0 (stale by 500s) is deleted, the one
last seen at 300 (stale by 200s) is demoted to `"inactive"`, and the one
last seen at 450 (stale by 50s) is untouched. -/
theorem sweep_deletes_demotes_preserves_witness :
    lookupReg (check_agent_liveness
      [("http://a", { agent_id := Json.str "A", base_url := "http://a",
                      last_seen := 0, status := "active" : AgentInfo }),
       ("http://b", { agent_id := Json.str "B", base_url := "http://b",
                      last_seen := 300, status := "active" : AgentInfo }),
       ("http://c", { agent_id := Json.str "C", base_url := "http://c",
                      last_seen := 450, status := "active" : AgentInfo })] 500)
      "http://a" = none ∧
    lookupReg (check_agent_liveness
      [("http://a", { agent_id := Json.str "A", base_url := "http://a",
                      last_seen := 0, status := "active" : AgentInfo }),
       ("http://b", { agent_id := Json.str "B", base_url := "http://b",
                      last_seen := 300, status := "active" : AgentInfo }),
       ("http://c", { agent_id := Json.str "C", base_url := "http://c",
                      last_seen := 450, status := "active" : AgentInfo })] 500)
      "http://b" =
      some { agent_id := Json.str "B", base_url := "http://b",
             last_seen := 300, status := "inactive" : AgentInfo } ∧
    lookupReg (check_agent_liveness
      [("http://a", { agent_id := Json.str "A", base_url := "http://a",
                      last_seen := 0, status := "active" : AgentInfo }),
       ("http://b", { agent_id := Json.str "B", base_url := "http://b",
                      last_seen := 300, status := "active" : AgentInfo }),
       ("http://c", { agent_id := Json.str "C", base_url := "http://c",
                      last_seen := 450, status := "active" : AgentInfo })] 500)
      "http://c" =
      some { agent_id := Json.str "C", base_url := "http://c",
             last_seen := 450, status := "active" : AgentInfo } := by
  have H := sweep_deletes_demotes_preserves
    [("http://a", { agent_id := Json.str "A", base_url := "http://a",
                    last_seen := 0, status := "active" : AgentInfo }),
     ("http://b", { agent_id := Json.str "B", base_url := "http://b",
                    last_seen := 300, status := "active" : AgentInfo }),
     ("http://c", { agent_id := Json.str "C", base_url := "http://c",
                    last_seen := 450, status := "active" : AgentInfo })] 500
    (by simp)
  exact ⟨(H.1 "http://a" _ rfl).1 (by decide),
         (H.1 "http://b" _ rfl).2.1 (by decide) (by decide) (by decide),
         (H.1 "http://c" _ rfl).2.2 (by decide)
           (fun hc => absurd hc.1 (by decide))⟩

/-! ### Failed polls -/

/-- The poll outcomes whose handling in `poll_agent` ends in the exception
epilogue: transport error (timeout / connection error), a non-2xx status
(`raise_for_status`), a body that is not JSON, a JSON body without an `id`
field, or an `id` whose value is falsy. -/
def pollFailureCase : HttpResult → Bool
  | .netError => true
  | .response code body =>
    !(isSuccessStatus code) ||
      match body with
      | none => true
      | some j =>
        match j.get "id" with
        | none => true
        | some v => !v.truthy

theorem poll_agent_failure (reg : Registry) (url : String) (result : HttpResult)
    (now : Int) (h : pollFailureCase result = true) :
    poll_agent reg url result now = (markUnreachable reg url, none) := by
  cases result with
  | netError => rfl
  | response code body =>
    by_cases hc : isSuccessStatus code = true
    · cases body with
      | none => simp [poll_agent, hc]
      | some j =>
        cases hid : j.get "id" with
        | none => simp [poll_agent, hc, hid]
        | some v =>
          have hv : v.truthy = false := by
            simp only [pollFailureCase, hc, hid] at h
            simpa using h
          simp [poll_agent, hc, hid, hv]
    · simp [poll_agent, hc]

theorem markUnreachable_of_not_mem (reg : Registry) (url : String)
    (h : url ∉ reg.map Prod.fst) : markUnreachable reg url = reg := by
  induction reg with
  | nil => rfl
  | cons p rest ih =>
    simp only [List.map_cons, List.mem_cons, not_or] at h
    have hp : p.1 ≠ url := fun he => h.1 he.symm
    rw [markUnreachable, List.map_cons, if_neg hp]
    rw [markUnreachable] at ih
    rw [ih h.2]

theorem lookup_markUnreachable_self (reg : Registry) (url : String) :
    lookupReg (markUnreachable reg url) url =
      (lookupReg reg url).map (fun i => { i with status := "unreachable" }) := by
  induction reg with
  | nil => rfl
  | cons p rest ih =>
    by_cases hp : p.1 = url
    · simp [markUnreachable, lookupReg, hp]
    · simp only [markUnreachable, List.map_cons, if_neg hp] at ih ⊢
      rw [lookupReg, if_neg hp, lookupReg, if_neg hp, ih]

theorem lookup_markUnreachable_ne (reg : Registry) (url u : String)
    (h : u ≠ url) :
    lookupReg (markUnreachable reg url) u = lookupReg reg u := by
  induction reg with
  | nil => rfl
  | cons p rest ih =>
    by_cases hp : p.1 = url
    · rw [markUnreachable, List.map_cons, if_pos hp, lookupReg, lookupReg]
      have : ¬ p.1 = u := fun he => h (he ▸ hp)
      rw [if_neg this, if_neg this]
      exact ih
    · rw [markUnreachable, List.map_cons, if_neg hp, lookupReg, lookupReg]
      by_cases hu : p.1 = u
      · rw [if_pos hu, if_pos hu]
      · rw [if_neg hu, if_neg hu]
        exact ih

theorem markUnreachable_keys (reg : Registry) (url : String) :
    (markUnreachable reg url).map Prod.fst = reg.map Prod.fst := by
  induction reg with
  | nil => rfl
  | cons p rest ih =>
    by_cases hp : p.1 = url
    · simp [markUnreachable, hp] at ih ⊢
      exact ih
    · simp [markUnreachable, hp] at ih ⊢
      exact ih

theorem markUnreachable_base_url (reg : Registry) (url : String)
    (hwf : ∀ p ∈ reg, p.2.base_url = p.1) :
    ∀ p ∈ markUnreachable reg url, p.2.base_url = p.1 := by
  intro p hp
  rcases List.mem_map.mp hp with ⟨q, hq, rfl⟩
  by_cases h : q.1 = url
  · simp only [if_pos h]
    exact hwf q hq
  · simp only [if_neg h]
    exact hwf q hq

theorem mem_of_lookup {reg : Registry} {url : String} {info : AgentInfo}
    (h : lookupReg reg url = some info) : (url, info) ∈ reg := by
  induction reg with
  | nil => cases h
  | cons p rest ih =>
    obtain ⟨k, v⟩ := p
    rw [lookupReg] at h
    by_cases hp : k = url
    · rw [if_pos hp] at h
      obtain rfl := Option.some_inj.mp h
      rw [← hp]
      exact List.mem_cons_self _ _
    · rw [if_neg hp] at h
      exact List.mem_cons_of_mem _ (ih h)

theorem lookup_of_mem_nodup {reg : Registry} {url : String} {info : AgentInfo}
    (hnodup : (reg.map Prod.fst).Nodup) (hmem : (url, info) ∈ reg) :
    lookupReg reg url = some info := by
  induction reg with
  | nil => cases hmem
  | cons p rest ih =>
    simp only [List.map_cons, List.nodup_cons] at hnodup
    rcases List.mem_cons.mp hmem with heq | hmem'
    · rw [← heq, lookupReg, if_pos rfl]
    · have : url ∈ rest.map Prod.fst := List.mem_map.mpr ⟨(url, info), hmem', rfl⟩
      have hp : p.1 ≠ url := fun he => hnodup.1 (he ▸ this)
      rw [lookupReg, if_neg hp]
      exact ih hnodup.2 hmem'

/-- C3: a failed poll of an endpoint with no record — transport error,
non-2xx status, or malformed payload — leaves the registry exactly as it
was, returns `none`, and the endpoint appears in neither
`get_active_agents` nor `get_all_discovered_agents`; records are never
created by a failed poll. -/
theorem poll_failure_creates_no_record (reg : Registry) (url : String)
    (result : HttpResult) (now : Int)
    (hfail : pollFailureCase result = true)
    (habsent : url ∉ reg.map Prod.fst)
    (hwf : ∀ p ∈ reg, p.2.base_url = p.1) :
    poll_agent reg url result now = (reg, none) ∧
    (∀ info ∈ get_all_discovered_agents (poll_agent reg url result now).1,
        info.base_url ≠ url) ∧
    (∀ info ∈ get_active_agents (poll_agent reg url result now).1,
        info.base_url ≠ url) := by
  have hpoll : poll_agent reg url result now = (reg, none) := by
    rw [poll_agent_failure reg url result now hfail,
      markUnreachable_of_not_mem reg url habsent]
  have hall : ∀ info ∈ get_all_discovered_agents reg, info.base_url ≠ url := by
    intro info hmem
    rcases List.mem_map.mp hmem with ⟨p, hp, rfl⟩
    rw [hwf p hp]
    exact fun he => habsent (he ▸ List.mem_map_of_mem Prod.fst hp)
  refine ⟨hpoll, ?_, ?_⟩
  · rw [hpoll]
    exact hall
  · rw [hpoll]
    intro info hmem
    exact hall info (List.mem_of_mem_filter hmem)

/-- Witness for the no-record theorem: first-ever poll of `"http://f"`
answers HTTP 404 on a one-record registry for a different endpoint. -/
theorem poll_failure_creates_no_record_witness :
    poll_agent [("http://e", { agent_id := Json.str "E", base_url := "http://e",
                               last_seen := 3, status := "active" : AgentInfo })]
        "http://f" (.response 404 none) 9 =
      ([("http://e", { agent_id := Json.str "E", base_url := "http://e",
                       last_seen := 3, status := "active" : AgentInfo })], none) ∧
    (∀ info ∈ get_all_discovered_agents (poll_agent
        [("http://e", { agent_id := Json.str "E", base_url := "http://e",
                        last_seen := 3, status := "active" : AgentInfo })]
        "http://f" (.response 404 none) 9).1, info.base_url ≠ "http://f") ∧
    (∀ info ∈ get_active_agents (poll_agent
        [("http://e", { agent_id := Json.str "E", base_url := "http://e",
                        last_seen := 3, status := "active" : AgentInfo })]
        "http://f" (.response 404 none) 9).1, info.base_url ≠ "http://f") :=
  poll_failure_creates_no_record
    [("http://e", { agent_id := Json.str "E", base_url := "http://e",
                    last_seen := 3, status := "active" })]
    "http://f" (.response 404 none) 9 (by decide) (by decide)
    (by intro p hp; simp at hp; rw [hp]) 

/-- C4: a failed poll of an endpoint that has a record sets only
`status = "unreachable"`, leaving every other field — `last_seen`,
`agent_id`, `name`, `description`, `capabilities_url` — exactly as it was,
leaves every other endpoint's record alone, keeps the record in
`get_all_discovered_agents`, and excludes the endpoint from
`get_active_agents`. -/
theorem poll_failure_marks_unreachable_only (reg : Registry) (url : String)
    (result : HttpResult) (now : Int) (info : AgentInfo)
    (hfail : pollFailureCase result = true)
    (hnodup : (reg.map Prod.fst).Nodup)
    (hwf : ∀ p ∈ reg, p.2.base_url = p.1)
    (hfound : lookupReg reg url = some info) :
    (poll_agent reg url result now).2 = none ∧
    lookupReg (poll_agent reg url result now).1 url =
      some { info with status := "unreachable" } ∧
    (∀ u, u ≠ url → lookupReg (poll_agent reg url result now).1 u =
        lookupReg reg u) ∧
    { info with status := "unreachable" } ∈
      get_all_discovered_agents (poll_agent reg url result now).1 ∧
    (∀ j ∈ get_active_agents (poll_agent reg url result now).1,
        j.base_url ≠ url) := by
  have hpoll := poll_agent_failure reg url result now hfail
  have hlk : lookupReg (markUnreachable reg url) url =
      some { info with status := "unreachable" } := by
    rw [lookup_markUnreachable_self, hfound]
    rfl
  refine ⟨by rw [hpoll], by rw [hpoll]; exact hlk, ?_, ?_, ?_⟩
  · intro u hu
    rw [hpoll]
    exact lookup_markUnreachable_ne reg url u hu
  · rw [hpoll]
    exact List.mem_map_of_mem Prod.snd (mem_of_lookup hlk)
  · rw [hpoll]
    intro j hj
    have hj' := List.mem_of_mem_filter hj
    rcases List.mem_map.mp hj' with ⟨p, hp, rfl⟩
    have hst := (List.mem_filter.mp hj).2
    intro hbu
    have hbu' : p.2.base_url = p.1 :=
      markUnreachable_base_url reg url hwf p hp
    have hkey : p.1 = url := by rw [← hbu', hbu]
    have hnodup' : ((markUnreachable reg url).map Prod.fst).Nodup := by
      rw [markUnreachable_keys]; exact hnodup
    obtain ⟨k, v⟩ := p
    simp only at hkey hst hbu hbu'
    rw [hkey] at hp
    have hlkv := lookup_of_mem_nodup hnodup' hp
    rw [hlk] at hlkv
    obtain heq := Option.some_inj.mp hlkv
    rw [← heq] at hst
    simp at hst

/-- Witness for the mark-unreachable theorem: endpoint `"http://g"` succeeds
at t = 5 (record present, `last_seen = 5`), then a poll times out. -/
theorem poll_failure_marks_unreachable_only_witness :
    (poll_agent [("http://g", { agent_id := Json.str "G", base_url := "http://g",
                                last_seen := 5, status := "active" : AgentInfo })]
        "http://g" .netError 35).2 = none ∧
    lookupReg (poll_agent
        [("http://g", { agent_id := Json.str "G", base_url := "http://g",
                        last_seen := 5, status := "active" : AgentInfo })]
        "http://g" .netError 35).1 "http://g" =
      some { agent_id := Json.str "G", base_url := "http://g",
             last_seen := 5, status := "unreachable" : AgentInfo } ∧
    (∀ u, u ≠ "http://g" → lookupReg (poll_agent
        [("http://g", { agent_id := Json.str "G", base_url := "http://g",
                        last_seen := 5, status := "active" : AgentInfo })]
        "http://g" .netError 35).1 u =
      lookupReg [("http://g", { agent_id := Json.str "G", base_url := "http://g",
                                last_seen := 5, status := "active" : AgentInfo })] u) ∧
    { agent_id := Json.str "G", base_url := "http://g",
      last_seen := 5, status := "unreachable" : AgentInfo } ∈
      get_all_discovered_agents (poll_agent
        [("http://g", { agent_id := Json.str "G", base_url := "http://g",
                        last_seen := 5, status := "active" : AgentInfo })]
        "http://g" .netError 35).1 ∧
    (∀ j ∈ get_active_agents (poll_agent
        [("http://g", { agent_id := Json.str "G", base_url := "http://g",
                        last_seen := 5, status := "active" : AgentInfo })]
        "http://g" .netError 35).1, j.base_url ≠ "http://g") :=
  poll_failure_marks_unreachable_only
    [("http://g", { agent_id := Json.str "G", base_url := "http://g",
                    last_seen := 5, status := "active" })]
    "http://g" .netError 35
    { agent_id := Json.str "G", base_url := "http://g",
      last_seen := 5, status := "active" }
    (by decide) (by simp) (by intro p hp; simp at hp; rw [hp]) rfl

/-! ### Repeated successful polls -/

theorem keys_map_replace (reg : Registry) (url : String) (info : AgentInfo) :
    (reg.map (fun p => if p.1 = url then (url, info) else p)).map Prod.fst =
      reg.map Prod.fst := by
  induction reg with
  | nil => rfl
  | cons p rest ih =>
    by_cases hp : p.1 = url
    · simp only [List.map_cons, if_pos hp, ih]
      rw [← hp]
    · simp only [List.map_cons, if_neg hp, ih]

theorem upsert_keys_nodup (reg : Registry) (url : String) (info : AgentInfo)
    (h : (reg.map Prod.fst).Nodup) :
    ((upsert reg url info).map Prod.fst).Nodup := by
  unfold upsert
  by_cases hany : reg.any (fun p => p.1 = url) = true
  · rw [if_pos hany, keys_map_replace]
    exact h
  · rw [if_neg hany, List.map_append]
    have hfalse : reg.any (fun p => p.1 = url) = false :=
      Bool.eq_false_iff.mpr hany
    have hnm := keys_not_mem_of_any_eq_false hfalse
    simp [List.nodup_append, h]
    intro x hx
    exact hnm (List.mem_map_of_mem Prod.fst hx)

theorem lookup_upsert_self (reg : Registry) (url : String) (info : AgentInfo)
    (hnodup : (reg.map Prod.fst).Nodup) :
    lookupReg (upsert reg url info) url = some info :=
  lookup_of_mem_nodup (upsert_keys_nodup reg url info hnodup)
    (mem_upsert_self reg url info hnodup)

/-- C5: successive successful polls of the same endpoint keep exactly one
record under that key — the second poll overwrites the first instead of
adding a record — and the stored id is the one claimed by the most recent
successful poll, even when the two polls claim different ids. -/
theorem repeated_poll_single_record (reg : Registry) (url : String)
    (c1 c2 : Nat) (b1 b2 : Json) (t1 t2 : Int) (id1 id2 : Json)
    (hnodup : (reg.map Prod.fst).Nodup)
    (hc1 : isSuccessStatus c1 = true) (hid1 : b1.get "id" = some id1)
    (ht1 : id1.truthy = true)
    (hc2 : isSuccessStatus c2 = true) (hid2 : b2.get "id" = some id2)
    (ht2 : id2.truthy = true) :
    (((poll_agent reg url (.response c1 (some b1)) t1).1.filter
        (fun p => p.1 = url)).length = 1) ∧
    ((((poll_agent (poll_agent reg url (.response c1 (some b1)) t1).1 url
        (.response c2 (some b2)) t2).1).filter
        (fun p => p.1 = url)).length = 1) ∧
    lookupReg (poll_agent (poll_agent reg url (.response c1 (some b1)) t1).1 url
        (.response c2 (some b2)) t2).1 url =
      some { agent_id := id2, base_url := url, name := b2.get "name",
             description := b2.get "description",
             capabilities_url := b2.get "capabilities_url",
             last_seen := t2, status := "active",
             raw_agent_json := some b2 } := by
  have hpoll1 : (poll_agent reg url (.response c1 (some b1)) t1).1 =
      upsert reg url
        { agent_id := id1, base_url := url, name := b1.get "name",
          description := b1.get "description",
          capabilities_url := b1.get "capabilities_url",
          last_seen := t1, status := "active", raw_agent_json := some b1 } := by
    simp [poll_agent, hc1, hid1, ht1]
  have hnodup1 : ((poll_agent reg url (.response c1 (some b1)) t1).1.map
      Prod.fst).Nodup := by
    rw [hpoll1]
    exact upsert_keys_nodup reg url _ hnodup
  have hpoll2 : (poll_agent (poll_agent reg url (.response c1 (some b1)) t1).1
      url (.response c2 (some b2)) t2).1 =
      upsert (poll_agent reg url (.response c1 (some b1)) t1).1 url
        { agent_id := id2, base_url := url, name := b2.get "name",
          description := b2.get "description",
          capabilities_url := b2.get "capabilities_url",
          last_seen := t2, status := "active", raw_agent_json := some b2 } := by
    simp [poll_agent, hc2, hid2, ht2]
  refine ⟨?_, ?_, ?_⟩
  · rw [hpoll1, filter_upsert reg url _ hnodup]
    rfl
  · rw [hpoll2, filter_upsert _ url _ hnodup1]
    rfl
  · rw [hpoll2]
    exact lookup_upsert_self _ url _ hnodup1

/-- Witness for the repeated-poll theorem: endpoint `"http://a"` claims
id `"X"` at t = 1 and id `"Y"` at t = 2; one record remains, with id `"Y"`. -/
theorem repeated_poll_single_record_witness :
    (((poll_agent [] "http://a"
        (.response 200 (some (Json.obj [("id", Json.str "X")]))) 1).1.filter
        (fun p => p.1 = "http://a")).length = 1) ∧
    ((((poll_agent (poll_agent [] "http://a"
        (.response 200 (some (Json.obj [("id", Json.str "X")]))) 1).1 "http://a"
        (.response 201 (some (Json.obj [("id", Json.str "Y")]))) 2).1).filter
        (fun p => p.1 = "http://a")).length = 1) ∧
    lookupReg (poll_agent (poll_agent [] "http://a"
        (.response 200 (some (Json.obj [("id", Json.str "X")]))) 1).1 "http://a"
        (.response 201 (some (Json.obj [("id", Json.str "Y")]))) 2).1 "http://a" =
      some { agent_id := Json.str "Y", base_url := "http://a",
             name := (Json.obj [("id", Json.str "Y")]).get "name",
             description := (Json.obj [("id", Json.str "Y")]).get "description",
             capabilities_url := (Json.obj [("id", Json.str "Y")]).get "capabilities_url",
             last_seen := 2, status := "active",
             raw_agent_json := some (Json.obj [("id", Json.str "Y")]) } :=
  repeated_poll_single_record [] "http://a" 200 201
    (Json.obj [("id", Json.str "X")]) (Json.obj [("id", Json.str "Y")]) 1 2
    (Json.str "X") (Json.str "Y") (by simp) (by rfl) (by rfl) (by rfl)
    (by rfl) (by rfl) (by rfl)

theorem lookup_map_replace_ne (rest : Registry) (url u : String)
    (info : AgentInfo) (h : u ≠ url) :
    lookupReg (rest.map (fun p => if p.1 = url then (url, info) else p)) u =
      lookupReg rest u := by
  induction rest with
  | nil => rfl
  | cons p rest ih =>
    by_cases hp : p.1 = url
    · rw [List.map_cons, if_pos hp, lookupReg, lookupReg]
      have h1 : ¬ url = u := fun he => h he.symm
      have h2 : ¬ p.1 = u := fun he => h1 (hp ▸ he)
      rw [if_neg h1, if_neg h2]
      exact ih
    · rw [List.map_cons, if_neg hp, lookupReg, lookupReg]
      by_cases hu : p.1 = u
      · rw [if_pos hu, if_pos hu]
      · rw [if_neg hu, if_neg hu]
        exact ih

theorem lookupReg_append (l1 l2 : Registry) (u : String) :
    lookupReg (l1 ++ l2) u =
      match lookupReg l1 u with
      | some v => some v
      | none => lookupReg l2 u := by
  induction l1 with
  | nil => rfl
  | cons p rest ih =>
    rw [List.cons_append, lookupReg, lookupReg]
    by_cases hp : p.1 = u
    · rw [if_pos hp, if_pos hp]
    · rw [if_neg hp, if_neg hp]
      exact ih

theorem lookup_upsert_ne (reg : Registry) (url u : String) (info : AgentInfo)
    (h : u ≠ url) :
    lookupReg (upsert reg url info) u = lookupReg reg u := by
  unfold upsert
  by_cases hany : reg.any (fun p => p.1 = url) = true
  · rw [if_pos hany]
    exact lookup_map_replace_ne reg url u info h
  · rw [if_neg hany, lookupReg_append]
    have hsingle : lookupReg [(url, info)] u = none := by
      rw [lookupReg, if_neg (fun he => h he.symm)]
      rfl
    cases hl : lookupReg reg u with
    | some v => rfl
    | none => rw [hsingle]

/-- C9 (implicit): a successful poll stores its record under the endpoint
url exactly as supplied — the slash-stripping used to build the well-known
descriptor URL is not applied to the registry key — and touches no other
key, so two spellings of the same base URL (here `"http://a"` and
`"http://a/"`, which produce the same descriptor URL) are distinct endpoints
with distinct records. -/
theorem poll_key_stored_verbatim (reg : Registry) (url : String)
    (code : Nat) (body : Json) (t : Int) (idv : Json)
    (hnodup : (reg.map Prod.fst).Nodup)
    (hcode : isSuccessStatus code = true)
    (hid : body.get "id" = some idv)
    (htruthy : idv.truthy = true) :
    lookupReg (poll_agent reg url (.response code (some body)) t).1 url =
      some { agent_id := idv, base_url := url, name := body.get "name",
             description := body.get "description",
             capabilities_url := body.get "capabilities_url",
             last_seen := t, status := "active",
             raw_agent_json := some body } ∧
    (∀ u, u ≠ url →
      lookupReg (poll_agent reg url (.response code (some body)) t).1 u =
        lookupReg reg u) ∧
    agent_wellknown_url "http://a" = agent_wellknown_url "http://a/" ∧
    "http://a" ≠ "http://a/" := by
  have hpoll : (poll_agent reg url (.response code (some body)) t).1 =
      upsert reg url
        { agent_id := idv, base_url := url, name := body.get "name",
          description := body.get "description",
          capabilities_url := body.get "capabilities_url",
          last_seen := t, status := "active", raw_agent_json := some body } := by
    simp [poll_agent, hcode, hid, htruthy]
  refine ⟨?_, ?_, by decide, by decide⟩
  · rw [hpoll]
    exact lookup_upsert_self reg url _ hnodup
  · intro u hu
    rw [hpoll]
    exact lookup_upsert_ne reg url u _ hu

/-- Witness for the verbatim-key theorem: polling `"http://a/"` on a registry
already holding a record for `"http://a"` adds a second, separate record and
leaves the `"http://a"` record untouched, although both spellings have the
same well-known descriptor URL. -/
theorem poll_key_stored_verbatim_witness :
    lookupReg (poll_agent
        [("http://a", { agent_id := Json.str "X", base_url := "http://a",
                        last_seen := 1, status := "active" : AgentInfo })]
        "http://a/" (.response 200 (some (Json.obj [("id", Json.str "X")]))) 2).1
        "http://a/" =
      some { agent_id := Json.str "X", base_url := "http://a/",
             name := (Json.obj [("id", Json.str "X")]).get "name",
             description := (Json.obj [("id", Json.str "X")]).get "description",
             capabilities_url := (Json.obj [("id", Json.str "X")]).get "capabilities_url",
             last_seen := 2, status := "active",
             raw_agent_json := some (Json.obj [("id", Json.str "X")]) } ∧
    lookupReg (poll_agent
        [("http://a", { agent_id := Json.str "X", base_url := "http://a",
                        last_seen := 1, status := "active" : AgentInfo })]
        "http://a/" (.response 200 (some (Json.obj [("id", Json.str "X")]))) 2).1
        "http://a" =
      lookupReg [("http://a", { agent_id := Json.str "X", base_url := "http://a",
                                last_seen := 1, status := "active" : AgentInfo })]
        "http://a" ∧
    agent_wellknown_url "http://a" = agent_wellknown_url "http://a/" ∧
    "http://a" ≠ "http://a/" := by
  have H := poll_key_stored_verbatim
    [("http://a", { agent_id := Json.str "X", base_url := "http://a",
                    last_seen := 1, status := "active" : AgentInfo })]
    "http://a/" 200 (Json.obj [("id", Json.str "X")]) 2 (Json.str "X")
    (by simp) (by rfl) (by rfl) (by rfl)
  exact ⟨H.1, H.2.1 "http://a" (by decide), H.2.2.1, H.2.2.2⟩

/-- C10 (implicit): a 2xx response whose JSON object has an `id` field with a
falsy value (empty string, or any other falsy JSON value) is treated exactly
like a payload missing `id`: the poll fails returning `none`, any existing
record for the endpoint is merely marked `"unreachable"`, and no record is
created or refreshed — the key set of the registry is unchanged. -/
theorem poll_falsy_id_is_failure (reg : Registry) (url : String) (code : Nat)
    (body : Json) (t : Int) (idv : Json)
    (hcode : isSuccessStatus code = true)
    (hid : body.get "id" = some idv)
    (hfalsy : idv.truthy = false) :
    poll_agent reg url (.response code (some body)) t =
      (markUnreachable reg url, none) ∧
    (∀ bodyMissing : Json, bodyMissing.get "id" = none →
      poll_agent reg url (.response code (some body)) t =
        poll_agent reg url (.response code (some bodyMissing)) t) ∧
    (poll_agent reg url (.response code (some body)) t).1.map Prod.fst =
      reg.map Prod.fst ∧
    (∀ info, lookupReg reg url = some info →
      lookupReg (poll_agent reg url (.response code (some body)) t).1 url =
        some { info with status := "unreachable" }) := by
  have hfail : poll_agent reg url (.response code (some body)) t =
      (markUnreachable reg url, none) := by
    simp [poll_agent, hcode, hid, hfalsy]
  refine ⟨hfail, ?_, ?_, ?_⟩
  · intro bodyMissing hmiss
    rw [hfail]
    simp [poll_agent, hcode, hmiss]
  · rw [hfail]
    exact markUnreachable_keys reg url
  · intro info hfound
    rw [hfail]
    rw [lookup_markUnreachable_self, hfound]
    rfl

/-- Witness for the falsy-id theorem: endpoint `"http://h"` with an existing
active record answers 200 with body `{"id": ""}` at t = 40; the outcome is
identical to a body with no `id` at all (here `{}`): the record is only
marked `"unreachable"` and the key set is unchanged. -/
theorem poll_falsy_id_is_failure_witness :
    poll_agent [("http://h", { agent_id := Json.str "H", base_url := "http://h",
                               last_seen := 10, status := "active" : AgentInfo })]
        "http://h" (.response 200 (some (Json.obj [("id", Json.str "")]))) 40 =
      (markUnreachable
        [("http://h", { agent_id := Json.str "H", base_url := "http://h",
                        last_seen := 10, status := "active" : AgentInfo })]
        "http://h", none) ∧
    poll_agent [("http://h", { agent_id := Json.str "H", base_url := "http://h",
                               last_seen := 10, status := "active" : AgentInfo })]
        "http://h" (.response 200 (some (Json.obj [("id", Json.str "")]))) 40 =
      poll_agent [("http://h", { agent_id := Json.str "H", base_url := "http://h",
                                 last_seen := 10, status := "active" : AgentInfo })]
        "http://h" (.response 200 (some (Json.obj []))) 40 ∧
    (poll_agent [("http://h", { agent_id := Json.str "H", base_url := "http://h",
                                last_seen := 10, status := "active" : AgentInfo })]
        "http://h" (.response 200 (some (Json.obj [("id", Json.str "")]))) 40).1.map
        Prod.fst =
      ["http://h"] ∧
    lookupReg (poll_agent
        [("http://h", { agent_id := Json.str "H", base_url := "http://h",
                        last_seen := 10, status := "active" : AgentInfo })]
        "http://h" (.response 200 (some (Json.obj [("id", Json.str "")]))) 40).1
        "http://h" =
      some { agent_id := Json.str "H", base_url := "http://h",
             last_seen := 10, status := "unreachable" : AgentInfo } := by
  have H := poll_falsy_id_is_failure
    [("http://h", { agent_id := Json.str "H", base_url := "http://h",
                    last_seen := 10, status := "active" : AgentInfo })]
    "http://h" 200 (Json.obj [("id", Json.str "")]) 40 (Json.str "")
    (by rfl) (by rfl) (by rfl)
  exact ⟨H.1, H.2.1 (Json.obj []) rfl, H.2.2.1, H.2.2.2 _ rfl⟩

/-! ### The dispute-policy evaluator (`agent_dispute_policy/app/main.py`) -/

/-- `PolicyDecisionEnum` from `agent_dispute_policy/app/models.py`. -/
inductive PolicyDecisionEnum where
  | approved
  | rejected
  | needsReview
deriving DecidableEq, Repr

/-- `TransactionDetails` from `agent_dispute_policy/app/models.py`.  The
`amount` field is a Python `float`; it is modelled as a rational (every
float value is a rational), which keeps the policy's threshold comparisons
exact.  The timestamp is modelled as an integer as elsewhere. -/
structure TransactionDetails where
  transaction_id : String
  amount : ℚ
  currency : String := "USD"
  merchant : String
  timestamp : Int
  status : String := "completed"
deriving DecidableEq, Repr

/-- `DisputePolicyCheckResponse` from `agent_dispute_policy/app/models.py`. -/
structure DisputePolicyCheckResponse where
  dispute_id : String
  transaction_id : String
  policy_decision : PolicyDecisionEnum
  reasoning : String
  next_steps : Option String := none
deriving DecidableEq, Repr

/-- Python's `needle in haystack` on strings: substring containment. -/
def strContains (haystack needle : String) : Bool :=
  (haystack.splitOn needle).length != 1

/-- Python's `uuid.uuid4().hex[:8].upper()`: the first 8 characters of the
hex digest, uppercased (character-by-character, as on ASCII hex digits). -/
def hexPrefixUpper (s : String) : String :=
  String.mk ((s.toList.take 8).map Char.toUpper)

/-- `check_dispute_policy` (agent_dispute_policy/app/main.py lines 44-84).
Two effects of the Python runtime are passed in explicitly: `uuid_hex` is
the hex digest of the `uuid.uuid4()` drawn by this call (fresh randomness,
the only nondeterministic input), and `fmt` is Python's deterministic
`f"{x:.2f}"` float formatting used inside the reasoning strings. -/
def check_dispute_policy (fmt : ℚ → String) (uuid_hex : String)
    (transaction : TransactionDetails) (reason : String) :
    DisputePolicyCheckResponse :=
  let dispute_id := "DISPUTE-" ++ hexPrefixUpper uuid_hex
  if transaction.amount < 10 && !(strContains reason.toLower "not received") then
    { dispute_id := dispute_id
      transaction_id := transaction.transaction_id
      policy_decision := .approved
      reasoning := "Auto-approved: Low transaction amount ($" ++
        fmt transaction.amount ++ ") and acceptable reason."
      next_steps := some "Refund processed automatically (simulated)." }
  else if transaction.amount < 50 &&
      (strContains reason.toLower "duplicate" ||
       strContains reason.toLower "not received") then
    { dispute_id := dispute_id
      transaction_id := transaction.transaction_id
      policy_decision := .approved
      reasoning := "Auto-approved: Transaction amount ($" ++
        fmt transaction.amount ++ ") under threshold for reason \x27" ++
        reason ++ "\x27."
      next_steps := some "Refund processed automatically (simulated)." }
  else if transaction.amount ≥ 500 then
    { dispute_id := dispute_id
      transaction_id := transaction.transaction_id
      policy_decision := .needsReview
      reasoning := "High value transaction ($" ++ fmt transaction.amount ++
        "). Manual review required."
      next_steps := some "Escalate to senior dispute agent." }
  else if strContains reason.toLower "unauthorized" then
    { dispute_id := dispute_id
      transaction_id := transaction.transaction_id
      policy_decision := .needsReview
      reasoning := "Potential unauthorized transaction. Requires fraud check."
      next_steps := some "Forward to fraud department and request more info from customer." }
  else if transaction.status = "pending" then
    { dispute_id := dispute_id
      transaction_id := transaction.transaction_id
      policy_decision := .rejected
      reasoning := "Dispute rejected: Transaction is still pending and not completed."
      next_steps := some "Advise customer to wait for transaction completion." }
  else
    { dispute_id := dispute_id
      transaction_id := transaction.transaction_id
      policy_decision := .needsReview
      reasoning := "Default decision: Further review required."
      next_steps := some "Assign to dispute resolution team." }

/-- In every branch of `check_dispute_policy`, the `dispute_id` of the
response is `"DISPUTE-"` followed by the first 8 hex digits of this call's
uuid draw, uppercased. -/
theorem check_dispute_policy_dispute_id (fmt : ℚ → String)
    (uuid_hex : String) (transaction : TransactionDetails) (reason : String) :
    (check_dispute_policy fmt uuid_hex transaction reason).dispute_id =
      "DISPUTE-" ++ hexPrefixUpper uuid_hex := by
  unfold check_dispute_policy
  split_ifs <;> rfl

/-- C8 counterexample: two calls of `check_dispute_policy` with identical
transaction and reason do not return identical responses, because each call
embeds its own freshly drawn uuid in `dispute_id`; shown here at a concrete
input with the uuid draws of the two calls differing. -/
theorem check_dispute_policy_responses_differ :
    check_dispute_policy (fun _ => "5.00") "aaaaaaaa11112222"
        { transaction_id := "TX1", amount := 5, merchant := "M",
          timestamp := 0, status := "completed" } "wrong item" ≠
      check_dispute_policy (fun _ => "5.00") "bbbbbbbb33334444"
        { transaction_id := "TX1", amount := 5, merchant := "M",
          timestamp := 0, status := "completed" } "wrong item" := by
  intro h
  have hd := congrArg DisputePolicyCheckResponse.dispute_id h
  rw [check_dispute_policy_dispute_id, check_dispute_policy_dispute_id] at hd
  exact absurd hd (by decide)

/-- C8 amended: the evaluator is stateless and deterministic apart from the
freshly drawn dispute id: for a fixed float formatter, two calls with the
same reason and transactions agreeing on amount and status produce the same
`policy_decision`; two calls on the very same transaction and reason agree on
every response field except possibly `dispute_id`; and the decision is always
one of Approved, Rejected, NeedsReview. -/
theorem check_dispute_policy_deterministic (fmt : ℚ → String)
    (u1 u2 : String) (tx1 tx2 : TransactionDetails) (reason : String)
    (hamount : tx1.amount = tx2.amount) (hstatus : tx1.status = tx2.status) :
    (check_dispute_policy fmt u1 tx1 reason).policy_decision =
      (check_dispute_policy fmt u2 tx2 reason).policy_decision ∧
    ((check_dispute_policy fmt u1 tx1 reason).transaction_id =
        (check_dispute_policy fmt u2 tx1 reason).transaction_id ∧
     (check_dispute_policy fmt u1 tx1 reason).reasoning =
        (check_dispute_policy fmt u2 tx1 reason).reasoning ∧
     (check_dispute_policy fmt u1 tx1 reason).next_steps =
        (check_dispute_policy fmt u2 tx1 reason).next_steps) ∧
    ((check_dispute_policy fmt u1 tx1 reason).policy_decision = .approved ∨
     (check_dispute_policy fmt u1 tx1 reason).policy_decision = .rejected ∨
     (check_dispute_policy fmt u1 tx1 reason).policy_decision = .needsReview) := by
  refine ⟨?_, ?_, ?_⟩
  · unfold check_dispute_policy
    rw [hamount, hstatus]
    split_ifs <;> rfl
  · unfold check_dispute_policy
    split_ifs <;> exact ⟨rfl, rfl, rfl⟩
  · unfold check_dispute_policy
    split_ifs <;> simp

/-- Witness for the determinism theorem: the same transaction (amount 5,
status `"completed"`) and reason `"wrong item"` under two different uuid
draws agree on decision, transaction id, reasoning and next steps. -/
theorem check_dispute_policy_deterministic_witness :
    (check_dispute_policy (fun _ => "5.00") "aaaaaaaa11112222"
        { transaction_id := "TX1", amount := 5, merchant := "M",
          timestamp := 0, status := "completed" } "wrong item").policy_decision =
      (check_dispute_policy (fun _ => "5.00") "bbbbbbbb33334444"
        { transaction_id := "TX1", amount := 5, merchant := "M",
          timestamp := 0, status := "completed" } "wrong item").policy_decision ∧
    ((check_dispute_policy (fun _ => "5.00") "aaaaaaaa11112222"
        { transaction_id := "TX1", amount := 5, merchant := "M",
          timestamp := 0, status := "completed" } "wrong item").transaction_id =
      (check_dispute_policy (fun _ => "5.00") "bbbbbbbb33334444"
        { transaction_id := "TX1", amount := 5, merchant := "M",
          timestamp := 0, status := "completed" } "wrong item").transaction_id ∧
     (check_dispute_policy (fun _ => "5.00") "aaaaaaaa11112222"
        { transaction_id := "TX1", amount := 5, merchant := "M",
          timestamp := 0, status := "completed" } "wrong item").reasoning =
      (check_dispute_policy (fun _ => "5.00") "bbbbbbbb33334444"
        { transaction_id := "TX1", amount := 5, merchant := "M",
          timestamp := 0, status := "completed" } "wrong item").reasoning ∧
     (check_dispute_policy (fun _ => "5.00") "aaaaaaaa11112222"
        { transaction_id := "TX1", amount := 5, merchant := "M",
          timestamp := 0, status := "completed" } "wrong item").next_steps =
      (check_dispute_policy (fun _ => "5.00") "bbbbbbbb33334444"
        { transaction_id := "TX1", amount := 5, merchant := "M",
          timestamp := 0, status := "completed" } "wrong item").next_steps) ∧
    ((check_dispute_policy (fun _ => "5.00") "aaaaaaaa11112222"
        { transaction_id := "TX1", amount := 5, merchant := "M",
          timestamp := 0, status := "completed" } "wrong item").policy_decision =
        .approved ∨
     (check_dispute_policy (fun _ => "5.00") "aaaaaaaa11112222"
        { transaction_id := "TX1", amount := 5, merchant := "M",
          timestamp := 0, status := "completed" } "wrong item").policy_decision =
        .rejected ∨
     (check_dispute_policy (fun _ => "5.00") "aaaaaaaa11112222"
        { transaction_id := "TX1", amount := 5, merchant := "M",
          timestamp := 0, status := "completed" } "wrong item").policy_decision =
        .needsReview) :=
  check_dispute_policy_deterministic (fun _ => "5.00")
    "aaaaaaaa11112222" "bbbbbbbb33334444"
    { transaction_id := "TX1", amount := 5, merchant := "M",
      timestamp := 0, status := "completed" }
    { transaction_id := "TX1", amount := 5, merchant := "M",
      timestamp := 0, status := "completed" }
    "wrong item" rfl rfl

/-! ### Reference semantics of the registry reads -/

/-- Object references: Python object identity. -/
abbrev Ref := Nat

/-- A heap of `AgentInfo` objects addressed by reference; Python `AgentInfo`
instances are mutable objects, so the registry and every caller that holds a
reference see the same cell. -/
abbrev Heap := List (Ref × AgentInfo)

/-- Dereference an object: read the `AgentInfo` currently stored behind `r`. -/
def heapGet : Heap → Ref → Option AgentInfo
  | [], _ => none
  | c :: rest, r => if c.1 = r then some c.2 else heapGet rest r

/-- In-place mutation of the object behind `r`. -/
def heapSet (h : Heap) (r : Ref) (a : AgentInfo) : Heap :=
  h.map (fun c => if c.1 = r then (c.1, a) else c)

/-- The discovery module state under reference semantics: the dict
`active_agents` maps each url to a reference to a shared `AgentInfo`
object living in the heap. -/
structure DiscoveryState where
  agents : List (String × Ref)
  heap : Heap

def lookupRef : List (String × Ref) → String → Option Ref
  | [], _ => none
  | p :: rest, url => if p.1 = url then some p.2 else lookupRef rest url

/-- The failure epilogue of `poll_agent` under reference semantics:
`active_agents[agent_url].status = "unreachable"` (discovery.py line 109)
mutates the shared `AgentInfo` object in place. -/
def markUnreachableState (s : DiscoveryState) (url : String) : DiscoveryState :=
  match lookupRef s.agents url with
  | none => s
  | some r =>
    match heapGet s.heap r with
    | none => s
    | some info =>
      ⟨s.agents, heapSet s.heap r { info with status := "unreachable" }⟩

/-- `get_all_discovered_agents` under reference semantics:
`list(active_agents.values())` builds a fresh list object whose elements
are references to the very `AgentInfo` objects the registry holds — the
list container is copied, the records are not. -/
def get_all_discovered_agents_refs (s : DiscoveryState) : List Ref :=
  s.agents.map Prod.snd

theorem heapGet_heapSet_self (h : Heap) (r : Ref) (a info : AgentInfo)
    (hfound : heapGet h r = some info) : heapGet (heapSet h r a) r = some a := by
  induction h with
  | nil => cases hfound
  | cons c rest ih =>
    by_cases hc : c.1 = r
    · rw [heapSet, List.map_cons, if_pos hc, heapGet, if_pos hc]
    · rw [heapSet, List.map_cons, if_neg hc, heapGet, if_neg hc]
      rw [heapGet, if_neg hc] at hfound
      exact ih hfound

theorem lookupRef_mem {agents : List (String × Ref)} {url : String} {r : Ref}
    (h : lookupRef agents url = some r) : r ∈ agents.map Prod.snd := by
  induction agents with
  | nil => cases h
  | cons p rest ih =>
    rw [lookupRef] at h
    by_cases hp : p.1 = url
    · rw [if_pos hp] at h
      rw [List.map_cons, Option.some_inj.mp h]
      exact List.mem_cons_self _ _
    · rw [if_neg hp] at h
      exact List.mem_cons_of_mem _ (ih h)

theorem markUnreachableState_agents (s : DiscoveryState) (url : String) :
    (markUnreachableState s url).agents = s.agents := by
  unfold markUnreachableState
  cases lookupRef s.agents url with
  | none => rfl
  | some r =>
    show (match heapGet s.heap r with
      | none => s
      | some info =>
        (⟨s.agents, heapSet s.heap r { info with status := "unreachable" }⟩ :
          DiscoveryState)).agents = s.agents
    cases heapGet s.heap r with
    | none => rfl
    | some i => rfl

theorem markUnreachableState_eq (s : DiscoveryState) (url : String) (r : Ref)
    (info : AgentInfo) (href : lookupRef s.agents url = some r)
    (hcell : heapGet s.heap r = some info) :
    markUnreachableState s url =
      ⟨s.agents, heapSet s.heap r { info with status := "unreachable" }⟩ := by
  simp only [markUnreachableState, href, hcell]

/-- C6 counterexample: the registry reads do not return deep copies.  On a
one-record registry, `get_all_discovered_agents` hands the caller the
reference `0`; a subsequent failed-poll mutation of the registry changes the
very record the caller received (its status flips from `"active"` to
`"unreachable"` under the reference held by the caller). -/
theorem registry_read_then_mutation_changes_callers_record :
    get_all_discovered_agents_refs
      ⟨[("http://a", 0)],
       [(0, { agent_id := Json.str "X", base_url := "http://a",
              last_seen := 1, status := "active" : AgentInfo })]⟩ = [0] ∧
    Option.map AgentInfo.status
      (heapGet (⟨[("http://a", 0)],
        [(0, { agent_id := Json.str "X", base_url := "http://a",
               last_seen := 1, status := "active" : AgentInfo })]⟩ :
          DiscoveryState).heap 0) = some "active" ∧
    Option.map AgentInfo.status
      (heapGet (markUnreachableState
        ⟨[("http://a", 0)],
         [(0, { agent_id := Json.str "X", base_url := "http://a",
                last_seen := 1, status := "active" : AgentInfo })]⟩
        "http://a").heap 0) = some "unreachable" ∧
    heapGet (markUnreachableState
        ⟨[("http://a", 0)],
         [(0, { agent_id := Json.str "X", base_url := "http://a",
                last_seen := 1, status := "active" : AgentInfo })]⟩
        "http://a").heap 0 ≠
      heapGet (⟨[("http://a", 0)],
        [(0, { agent_id := Json.str "X", base_url := "http://a",
               last_seen := 1, status := "active" : AgentInfo })]⟩ :
         DiscoveryState).heap 0 := by
  refine ⟨rfl, rfl, rfl, ?_⟩
  intro h
  have hs := congrArg (Option.map AgentInfo.status) h
  exact absurd hs (by decide)

/-- C6 amended: every read returns a fresh list container — registry
mutations do not change which references the returned list holds — but the
elements are shared references to the live records, so a registry mutation
after the read (here the failed-poll epilogue) is observed through the
reference the caller already received. -/
theorem registry_reads_share_records (s : DiscoveryState) (url : String)
    (r : Ref) (info : AgentInfo)
    (href : lookupRef s.agents url = some r)
    (hcell : heapGet s.heap r = some info) :
    r ∈ get_all_discovered_agents_refs s ∧
    get_all_discovered_agents_refs (markUnreachableState s url) =
      get_all_discovered_agents_refs s ∧
    heapGet (markUnreachableState s url).heap r =
      some { info with status := "unreachable" } := by
  refine ⟨lookupRef_mem href, ?_, ?_⟩
  · unfold get_all_discovered_agents_refs
    rw [markUnreachableState_agents]
  · rw [markUnreachableState_eq s url r info href hcell]
    exact heapGet_heapSet_self s.heap r _ info hcell

/-- Witness for the shared-records theorem at the concrete one-record
state. -/
theorem registry_reads_share_records_witness :
    (0 : Ref) ∈ get_all_discovered_agents_refs
      ⟨[("http://a", 0)],
       [(0, { agent_id := Json.str "X", base_url := "http://a",
              last_seen := 1, status := "active" : AgentInfo })]⟩ ∧
    get_all_discovered_agents_refs (markUnreachableState
      ⟨[("http://a", 0)],
       [(0, { agent_id := Json.str "X", base_url := "http://a",
              last_seen := 1, status := "active" : AgentInfo })]⟩ "http://a") =
      get_all_discovered_agents_refs
        ⟨[("http://a", 0)],
         [(0, { agent_id := Json.str "X", base_url := "http://a",
                last_seen := 1, status := "active" : AgentInfo })]⟩ ∧
    heapGet (markUnreachableState
      ⟨[("http://a", 0)],
       [(0, { agent_id := Json.str "X", base_url := "http://a",
              last_seen := 1, status := "active" : AgentInfo })]⟩
      "http://a").heap 0 =
      some { agent_id := Json.str "X", base_url := "http://a",
             last_seen := 1, status := "unreachable" : AgentInfo } :=
  registry_reads_share_records
    ⟨[("http://a", 0)],
     [(0, { agent_id := Json.str "X", base_url := "http://a",
            last_seen := 1, status := "active" : AgentInfo })]⟩
    "http://a" 0
    { agent_id := Json.str "X", base_url := "http://a",
      last_seen := 1, status := "active" }
    rfl rfl
